import Mathlib

/-!
Verification of the bytecode virtual machine of carepollo/sexlang
(`src/vm/vm.go`), as a shallow embedding in Lean 4.

The machine integers of the source are Go `int64`; they are embedded as
`Int` together with an explicit two's-complement reduction `wrap64`
applied exactly where Go arithmetic can overflow.  Go runtime panics
(out-of-range slice index, nil-interface method call, integer division
by zero, failed type assertion) are embedded as the `Res.crash`
constructor, distinct from `Res.err`, which embeds an `error` value
returned to the caller.  An `err` result carries the state of the
receiver `*VM` at the moment the error was returned, mirroring the Go
methods that mutate their receiver and return an `error`.
-/

namespace Vm

/-- Modelled from the spec: the runtime value model (`object` package is
not under `src/`; spec §3 "Runtime value").  `integer` holds a signed
64-bit value; `boolean` values are the two process-wide singletons, so
Go reference equality between booleans coincides with equality of the
payload; `other` stands for any further kind defined by the excluded
object-model collaborator, carrying its kind name and an allocation
identifier standing for its pointer; `nilObj` is the zero value of the
Go interface type (the content of a never-written stack slot). -/
inductive Obj where
  | integer (value : Int)
  | boolean (value : Bool)
  | other (kind : String) (ref : Nat)
  | nilObj
deriving DecidableEq, Repr

/-- Modelled from the spec: kind-discriminant string of the Integer kind
(`object.INTEGER_OBJ`, `object` package not under `src/`). -/
def INTEGER_OBJ : String := "INTEGER"

/-- Modelled from the spec: kind-discriminant string of the Boolean kind
(`object.BOOLEAN_OBJ`, `object` package not under `src/`). -/
def BOOLEAN_OBJ : String := "BOOLEAN"

/-- `o.Type()` of the source.  `none` embeds the Go runtime panic of
calling a method on a nil interface value. -/
def typeOf : Obj → Option String
  | .integer _ => some INTEGER_OBJ
  | .boolean _ => some BOOLEAN_OBJ
  | .other k _ => some k
  | .nilObj => none

/-- Go `==` on two `object.Object` interface values: equal dynamic type
and equal pointer.  The two boolean singletons compare by payload (there
is exactly one live instance per payload, `vm.go` lines 13-14); `other`
values compare by allocation identifier; two `integer` objects reached
here are always distinct allocations (the VM allocates a fresh
`object.Integer` for every arithmetic result, and the only call site,
the non-both-integer fallback of `executeComparison`, never receives two
integers); nil equals nil. -/
def identEq : Obj → Obj → Bool
  | .boolean a, .boolean b => a == b
  | .other k i, .other k2 i2 => k == k2 && i == i2
  | .nilObj, .nilObj => true
  | _, _ => false

/-- Two's-complement reduction of Go `int64` arithmetic. -/
def wrap64 (n : Int) : Int := (n + 2 ^ 63) % 2 ^ 64 - 2 ^ 63

/-- The value range of a Go `int64`. -/
def isInt64 (n : Int) : Prop := -(2 ^ 63) ≤ n ∧ n < 2 ^ 63

/-- Modelled from the spec: opcode byte of the load-constant instruction
(the `code` package is not under `src/`; spec §3/§4.2 fix the opcode
inventory and operand widths but not the byte values, which are chosen
here as distinct arbitrary bytes; no claim depends on the values). -/
def OpConstant : Nat := 0

/-- Modelled from the spec: opcode byte of add. -/
def OpAdd : Nat := 1

/-- Modelled from the spec: opcode byte of pop. -/
def OpPop : Nat := 2

/-- Modelled from the spec: opcode byte of subtract. -/
def OpSub : Nat := 3

/-- Modelled from the spec: opcode byte of multiply. -/
def OpMul : Nat := 4

/-- Modelled from the spec: opcode byte of divide. -/
def OpDiv : Nat := 5

/-- Modelled from the spec: opcode byte of load-literal-true. -/
def OpTrue : Nat := 6

/-- Modelled from the spec: opcode byte of load-literal-false. -/
def OpFalse : Nat := 7

/-- Modelled from the spec: opcode byte of equal. -/
def OpEqual : Nat := 8

/-- Modelled from the spec: opcode byte of not-equal. -/
def OpNotEqual : Nat := 9

/-- Modelled from the spec: opcode byte of greater-than. -/
def OpGreaterThan : Nat := 10

/-- Modelled from the spec: opcode byte of unary minus. -/
def OpMinus : Nat := 11

/-- Modelled from the spec: opcode byte of unary bang. -/
def OpBang : Nat := 12

/-- `const StackSize = 2048` (`vm.go` line 11). -/
def StackSize : Nat := 2048

/-- `var True = &object.Boolean{Value: true}` — the process-wide true
singleton (`vm.go` line 13). -/
def True : Obj := .boolean true

/-- `var False = &object.Boolean{Value: false}` — the process-wide false
singleton (`vm.go` line 14). -/
def False : Obj := .boolean false

/-- The `VM` struct (`vm.go` lines 16-21).  The source's misspelt field
name `contants` is kept.  `instructions` is the byte sequence of
`code.Instructions`; `stack` is the fixed backing array (never-written
slots hold `nilObj`, the Go zero value). -/
structure VM where
  contants : List Obj
  instructions : List Nat
  stack : Array Obj
  sp : Nat
deriving DecidableEq, Repr

/-- Result of a Go method that may mutate its receiver and return an
`error`: `ok` and `err` carry the receiver's state afterwards (`err`
additionally the error message); `crash` embeds a Go runtime panic,
which unwinds without yielding a state. -/
inductive Res where
  | ok (vm : VM)
  | err (msg : String) (vm : VM)
  | crash (msg : String)
deriving DecidableEq, Repr

/-- `true` iff the result is a normally returned `nil` error. -/
def Res.isOk : Res → Bool
  | .ok _ => true
  | _ => false

/-- The returned error message, when the result is an `error` value
(`none` both for success and for a runtime panic, which returns no
error value). -/
def Res.errMsg : Res → Option String
  | .err m _ => some m
  | _ => none

/-- `New(bytecode)` (`vm.go` lines 23-30): fresh zeroed stack of
capacity `StackSize`, `sp = 0`. -/
def New (instructions : List Nat) (constants : List Obj) : VM :=
  { contants := constants
    instructions := instructions
    stack := mkArray StackSize Obj.nilObj
    sp := 0 }

/-- `push` (`vm.go` lines 82-90): error when `sp >= StackSize`,
otherwise store at `stack[sp]` and increment `sp`.  The write
`vm.stack[vm.sp] = o` panics in Go if `sp` is not an index of the
backing array (unreachable through `New`, whose array has length
`StackSize`). -/
def push (vm : VM) (o : Obj) : Res :=
  if vm.sp ≥ StackSize then
    .err ("stack overflow") vm
  else if h : vm.sp < vm.stack.size then
    .ok { vm with stack := vm.stack.set ⟨vm.sp, h⟩ o, sp := vm.sp + 1 }
  else
    .crash ("runtime error: index out of range")

/-- `pop` (`vm.go` lines 92-96): read `stack[sp-1]`, decrement `sp`; the
array itself is not cleared, so the popped slot stays readable.  `none`
embeds the Go runtime panic of indexing at `-1` (when `sp = 0`) or past
the backing array. -/
def pop (vm : VM) : Option (Obj × VM) :=
  if vm.sp = 0 then none
  else
    match vm.stack.get? (vm.sp - 1) with
    | some o => some (o, { vm with sp := vm.sp - 1 })
    | none => none

/-- `LastPoppedStackElement` (`vm.go` lines 98-100): the raw read
`vm.stack[vm.sp]`.  `none` embeds the Go runtime panic of an
out-of-range index (reachable when `sp = StackSize`). -/
def LastPoppedStackElement (vm : VM) : Option Obj :=
  vm.stack.get? vm.sp

/-- `nativeBoolToBoolean` (`vm.go` lines 189-195): selects one of the
two singletons, never a fresh boolean. -/
def nativeBoolToBoolean (input : Bool) : Obj :=
  if input then True else False

/-- `executeBinaryIntegerOperation` (`vm.go` lines 119-142).  The type
assertions `left.(*object.Integer)` panic on a non-integer (unreachable:
the caller guards both kinds).  Go `int64` addition, subtraction and
multiplication wrap; division panics on a zero divisor and otherwise
truncates toward zero, with the single overflowing quotient
`MinInt64 / -1` wrapping to `MinInt64` — all captured by `wrap64`. -/
def executeBinaryIntegerOperation (vm : VM) (op : Nat) (left right : Obj) : Res :=
  match left, right with
  | .integer leftValue, .integer rightValue =>
    if op = OpAdd then
      push vm (.integer (wrap64 (leftValue + rightValue)))
    else if op = OpSub then
      push vm (.integer (wrap64 (leftValue - rightValue)))
    else if op = OpMul then
      push vm (.integer (wrap64 (leftValue * rightValue)))
    else if op = OpDiv then
      if rightValue = 0 then .crash ("runtime error: integer divide by zero")
      else push vm (.integer (wrap64 (Int.tdiv leftValue rightValue)))
    else
      .err ("unknown integer operator: " ++ toString op) vm
  | _, _ => .crash ("interface conversion: not an Integer")

/-- `executeBinaryOperation` (`vm.go` lines 102-117): pop right, pop
left, dispatch on the kinds; only Integer-Integer is supported, any
other pairing returns the type error naming both kinds. -/
def executeBinaryOperation (vm : VM) (op : Nat) : Res :=
  match pop vm with
  | none => .crash ("runtime error: index out of range")
  | some (right, vm1) =>
    match pop vm1 with
    | none => .crash ("runtime error: index out of range")
    | some (left, vm2) =>
      match typeOf left, typeOf right with
      | some leftType, some rightType =>
        if leftType = INTEGER_OBJ ∧ rightType = INTEGER_OBJ then
          executeBinaryIntegerOperation vm2 op left right
        else
          .err ("unsupported types for binary operation: " ++ leftType ++ " " ++ rightType) vm2
      | _, _ => .crash ("runtime error: invalid memory address or nil pointer dereference")

/-- `executeIntegerComparison` (`vm.go` lines 167-187): numeric
equal / not-equal / greater-than on the two integer payloads, result
always one of the two singletons. -/
def executeIntegerComparison (vm : VM) (op : Nat) (left right : Obj) : Res :=
  match left, right with
  | .integer leftval, .integer rightval =>
    if op = OpEqual then
      push vm (nativeBoolToBoolean (rightval == leftval))
    else if op = OpNotEqual then
      push vm (nativeBoolToBoolean (rightval != leftval))
    else if op = OpGreaterThan then
      push vm (nativeBoolToBoolean (decide (leftval > rightval)))
    else
      .err ("unknown operator: " ++ toString op) vm
  | _, _ => .crash ("interface conversion: not an Integer")

/-- `executeComparison` (`vm.go` lines 144-165): pop right, pop left;
both Integer goes to the numeric comparison (the `&&` of the guard
short-circuits, so `right.Type()` is only called when `left` is an
Integer); otherwise equal / not-equal fall back to Go `==` / `!=` on
the interface values (identity), and any other operator is the error
naming the operator and both kinds. -/
def executeComparison (vm : VM) (op : Nat) : Res :=
  match pop vm with
  | none => .crash ("runtime error: index out of range")
  | some (right, vm1) =>
    match pop vm1 with
    | none => .crash ("runtime error: index out of range")
    | some (left, vm2) =>
      let fallback : Res :=
        if op = OpEqual then
          push vm2 (nativeBoolToBoolean (identEq right left))
        else if op = OpNotEqual then
          push vm2 (nativeBoolToBoolean (!identEq right left))
        else
          match typeOf left, typeOf right with
          | some lt, some rt =>
            .err ("unknown operator " ++ toString op ++ " (" ++ lt ++ " " ++ rt ++ ")") vm2
          | _, _ => .crash ("runtime error: invalid memory address or nil pointer dereference")
      match typeOf left with
      | none => .crash ("runtime error: invalid memory address or nil pointer dereference")
      | some leftType =>
        if leftType = INTEGER_OBJ then
          match typeOf right with
          | none => .crash ("runtime error: invalid memory address or nil pointer dereference")
          | some rightType =>
            if rightType = INTEGER_OBJ then
              executeIntegerComparison vm2 op left right
            else fallback
        else fallback

/-- `executeBangOperator` (`vm.go` lines 197-208): a three-way switch on
the identity of the popped operand — the singleton `True` gives `False`,
the singleton `False` gives `True`, anything else (any non-boolean,
booleans being the two singletons) also gives `False`. -/
def executeBangOperator (vm : VM) : Res :=
  match pop vm with
  | none => .crash ("runtime error: index out of range")
  | some (operand, vm1) =>
    match operand with
    | .boolean true => push vm1 False
    | .boolean false => push vm1 True
    | _ => push vm1 False

/-- `executeMinusOperator` (`vm.go` lines 210-222): requires the Integer
kind, else the type error naming the offending kind; Go `-value` wraps
at `MinInt64`. -/
def executeMinusOperator (vm : VM) : Res :=
  match pop vm with
  | none => .crash ("runtime error: index out of range")
  | some (operand, vm1) =>
    match typeOf operand with
    | none => .crash ("runtime error: invalid memory address or nil pointer dereference")
    | some t =>
      if t ≠ INTEGER_OBJ then
        .err ("unsupported type for negation: " ++ t) vm1
      else
        match operand with
        | .integer value => push vm1 (.integer (wrap64 (-value)))
        | _ => .crash ("interface conversion: not an Integer")

/-- The dispatch loop of `Run` (`vm.go` lines 32-80), recursing on the
not-yet-consumed suffix of the instruction bytes (the source walks the
same bytes by an index `ip` that advances by one plus the operand width
of the decoded opcode).  The branch structure mirrors the source switch
exactly, including its two peculiarities: the add/sub/mul/div case
contains `if err != nil { return nil }` — a reported operator error
stops execution but `Run` returns a nil error (line 48) — and the
switch has no default case, so an unrecognized opcode byte is skipped
and the loop continues.  `code.ReadUint16` (package not under `src/`)
is the spec's 2-byte big-endian operand read, panicking when fewer than
two bytes remain; the constant-pool index panics when out of range. -/
def runLoop (vm : VM) : List Nat → Res
  | [] => .ok vm
  | op :: rest =>
    if op = OpConstant then
      match rest with
      | b1 :: b2 :: rest2 =>
        match vm.contants.get? (b1 * 256 + b2) with
        | some c =>
          match push vm c with
          | .ok vm2 => runLoop vm2 rest2
          | .err m s => .err m s
          | .crash m => .crash m
        | none => .crash ("runtime error: index out of range")
      | _ => .crash ("runtime error: index out of range")
    else if op = OpAdd ∨ op = OpSub ∨ op = OpMul ∨ op = OpDiv then
      match executeBinaryOperation vm op with
      | .ok vm2 => runLoop vm2 rest
      | .err _ s => .ok s
      | .crash m => .crash m
    else if op = OpPop then
      match pop vm with
      | some (_, vm2) => runLoop vm2 rest
      | none => .crash ("runtime error: index out of range")
    else if op = OpTrue then
      match push vm True with
      | .ok vm2 => runLoop vm2 rest
      | .err m s => .err m s
      | .crash m => .crash m
    else if op = OpFalse then
      match push vm False with
      | .ok vm2 => runLoop vm2 rest
      | .err m s => .err m s
      | .crash m => .crash m
    else if op = OpEqual ∨ op = OpNotEqual ∨ op = OpGreaterThan then
      match executeComparison vm op with
      | .ok vm2 => runLoop vm2 rest
      | .err m s => .err m s
      | .crash m => .crash m
    else if op = OpBang then
      match executeBangOperator vm with
      | .ok vm2 => runLoop vm2 rest
      | .err m s => .err m s
      | .crash m => .crash m
    else if op = OpMinus then
      match executeMinusOperator vm with
      | .ok vm2 => runLoop vm2 rest
      | .err m s => .err m s
      | .crash m => .crash m
    else
      runLoop vm rest

/-- `Run` (`vm.go` lines 32-80). -/
def Run (vm : VM) : Res :=
  runLoop vm vm.instructions

/-- The value most recently pushed: the content of `stack[sp-1]`. -/
def top (vm : VM) : Option Obj :=
  vm.stack.get? (vm.sp - 1)

/-- `Run` followed by `LastPoppedStackElement`, as the REPL driver calls
them: `none` when `Run` did not return a nil error, otherwise the
result of the read `stack[sp]` (itself `none` on an out-of-range
read). -/
def runThenLastPopped (instructions : List Nat) (constants : List Obj) : Option (Option Obj) :=
  match Run (New instructions constants) with
  | .ok vm => some (LastPoppedStackElement vm)
  | _ => none

/-! Unfolding lemmas for the embedded operations, used to execute the
machine symbolically without normalising the 2048-slot backing array. -/

theorem sp_New (ins : List Nat) (cs : List Obj) : (New ins cs).sp = 0 := rfl

theorem instructions_New (ins : List Nat) (cs : List Obj) : (New ins cs).instructions = ins := rfl

theorem stack_New (ins : List Nat) (cs : List Obj) :
    (New ins cs).stack = mkArray StackSize Obj.nilObj := rfl

theorem stackSize_New (ins : List Nat) (cs : List Obj) : (New ins cs).stack.size = StackSize := by
  rw [stack_New, Array.size_mkArray]

theorem push_overflow (vm : VM) (o : Obj) (h : vm.sp ≥ StackSize) :
    push vm o = .err ("stack overflow") vm := by
  unfold push
  rw [if_pos h]

theorem push_ok (vm : VM) (o : Obj) (h1 : vm.sp < StackSize) (h2 : vm.sp < vm.stack.size) :
    push vm o = .ok { vm with stack := vm.stack.set ⟨vm.sp, h2⟩ o, sp := vm.sp + 1 } := by
  unfold push
  rw [if_neg (by omega), dif_pos h2]

theorem pop_some (vm : VM) (o : Obj) (h1 : vm.sp ≠ 0)
    (h2 : vm.stack.get? (vm.sp - 1) = some o) :
    pop vm = some (o, { vm with sp := vm.sp - 1 }) := by
  unfold pop
  rw [if_neg h1, h2]

theorem runLoop_nil (vm : VM) : runLoop vm [] = .ok vm := rfl

theorem runLoop_constant (vm : VM) (b1 b2 : Nat) (rest : List Nat) :
    runLoop vm (OpConstant :: b1 :: b2 :: rest) =
      match vm.contants.get? (b1 * 256 + b2) with
      | some c =>
        match push vm c with
        | .ok vm2 => runLoop vm2 rest
        | .err m s => .err m s
        | .crash m => .crash m
      | none => .crash ("runtime error: index out of range") := by
  rw [runLoop.eq_def]
  norm_num [OpConstant]

theorem runLoop_binary (vm : VM) (op : Nat) (rest : List Nat)
    (h : op = OpAdd ∨ op = OpSub ∨ op = OpMul ∨ op = OpDiv) :
    runLoop vm (op :: rest) =
      match executeBinaryOperation vm op with
      | .ok vm2 => runLoop vm2 rest
      | .err _ s => .ok s
      | .crash m => .crash m := by
  rw [runLoop.eq_def]
  rcases h with h | h | h | h <;> subst h <;>
    norm_num [OpConstant, OpAdd, OpSub, OpMul, OpDiv]

theorem runLoop_pop (vm : VM) (rest : List Nat) :
    runLoop vm (OpPop :: rest) =
      match pop vm with
      | some (_, vm2) => runLoop vm2 rest
      | none => .crash ("runtime error: index out of range") := by
  rw [runLoop.eq_def]
  norm_num [OpConstant, OpAdd, OpSub, OpMul, OpDiv, OpPop]

theorem runLoop_true (vm : VM) (rest : List Nat) :
    runLoop vm (OpTrue :: rest) =
      match push vm True with
      | .ok vm2 => runLoop vm2 rest
      | .err m s => .err m s
      | .crash m => .crash m := by
  rw [runLoop.eq_def]
  norm_num [OpConstant, OpAdd, OpSub, OpMul, OpDiv, OpPop, OpTrue]

theorem runLoop_false (vm : VM) (rest : List Nat) :
    runLoop vm (OpFalse :: rest) =
      match push vm False with
      | .ok vm2 => runLoop vm2 rest
      | .err m s => .err m s
      | .crash m => .crash m := by
  rw [runLoop.eq_def]
  norm_num [OpConstant, OpAdd, OpSub, OpMul, OpDiv, OpPop, OpTrue, OpFalse]

theorem runLoop_comparison (vm : VM) (op : Nat) (rest : List Nat)
    (h : op = OpEqual ∨ op = OpNotEqual ∨ op = OpGreaterThan) :
    runLoop vm (op :: rest) =
      match executeComparison vm op with
      | .ok vm2 => runLoop vm2 rest
      | .err m s => .err m s
      | .crash m => .crash m := by
  rw [runLoop.eq_def]
  rcases h with h | h | h <;> subst h <;>
    norm_num [OpConstant, OpAdd, OpSub, OpMul, OpDiv, OpPop, OpTrue, OpFalse,
      OpEqual, OpNotEqual, OpGreaterThan]

theorem runLoop_bang (vm : VM) (rest : List Nat) :
    runLoop vm (OpBang :: rest) =
      match executeBangOperator vm with
      | .ok vm2 => runLoop vm2 rest
      | .err m s => .err m s
      | .crash m => .crash m := by
  rw [runLoop.eq_def]
  norm_num [OpConstant, OpAdd, OpSub, OpMul, OpDiv, OpPop, OpTrue, OpFalse,
    OpEqual, OpNotEqual, OpGreaterThan, OpBang]

theorem runLoop_minus (vm : VM) (rest : List Nat) :
    runLoop vm (OpMinus :: rest) =
      match executeMinusOperator vm with
      | .ok vm2 => runLoop vm2 rest
      | .err m s => .err m s
      | .crash m => .crash m := by
  rw [runLoop.eq_def]
  norm_num [OpConstant, OpAdd, OpSub, OpMul, OpDiv, OpPop, OpTrue, OpFalse,
    OpEqual, OpNotEqual, OpGreaterThan, OpBang, OpMinus]

theorem push_spec (vm : VM) (o : Obj) (h1 : vm.sp < StackSize) (h2 : vm.sp < vm.stack.size) :
    ∃ vm2, push vm o = .ok vm2 ∧ vm2.sp = vm.sp + 1 ∧ top vm2 = some o ∧
      vm2.stack.size = vm.stack.size ∧ vm2.contants = vm.contants ∧
      vm2.instructions = vm.instructions ∧
      (∀ j, j ≠ vm.sp → vm2.stack.get? j = vm.stack.get? j) := by
  refine ⟨_, push_ok vm o h1 h2, rfl, ?_, Array.size_set _ _ _, rfl, rfl, ?_⟩
  · show (vm.stack.set ⟨vm.sp, h2⟩ o).get? (vm.sp + 1 - 1) = some o
    rw [Nat.add_sub_cancel, Array.get?_eq_getElem?]
    exact Array.getElem?_set_eq _ ⟨vm.sp, h2⟩ o
  · intro j hj
    simp only [Array.get?_eq_getElem?]
    exact Array.getElem?_set_ne _ _ _ (by simpa using fun h => hj h.symm)

theorem executeBinaryOperation_ints (v : VM) (op : Nat) (a b : Int)
    (hsp : 2 ≤ v.sp)
    (hl : v.stack.get? (v.sp - 2) = some (.integer a))
    (hr : v.stack.get? (v.sp - 1) = some (.integer b)) :
    executeBinaryOperation v op
      = executeBinaryIntegerOperation { v with sp := v.sp - 2 } op (.integer a) (.integer b) := by
  unfold executeBinaryOperation
  rw [pop_some v (.integer b) (by omega) hr]
  simp only []
  rw [pop_some { v with sp := v.sp - 1 } (.integer a) (by simp; omega)
    (by simp only []; rw [show v.sp - 1 - 1 = v.sp - 2 from by omega]; exact hl)]
  norm_num [typeOf, Nat.sub_sub]

theorem executeBinaryOperation_typeErr (v : VM) (op : Nat) (l r : Obj) (lt rt : String)
    (hsp : 2 ≤ v.sp)
    (hl : v.stack.get? (v.sp - 2) = some l)
    (hr : v.stack.get? (v.sp - 1) = some r)
    (hlt : typeOf l = some lt) (hrt : typeOf r = some rt)
    (hni : ¬(lt = INTEGER_OBJ ∧ rt = INTEGER_OBJ)) :
    executeBinaryOperation v op
      = .err ("unsupported types for binary operation: " ++ lt ++ " " ++ rt)
          { v with sp := v.sp - 2 } := by
  unfold executeBinaryOperation
  rw [pop_some v r (by omega) hr]
  simp only []
  rw [pop_some { v with sp := v.sp - 1 } l (by simp; omega)
    (by simp only []; rw [show v.sp - 1 - 1 = v.sp - 2 from by omega]; exact hl)]
  simp only [hlt, hrt]
  rw [if_neg hni]
  norm_num [Nat.sub_sub]

theorem executeComparison_ints (v : VM) (op : Nat) (a b : Int)
    (hsp : 2 ≤ v.sp)
    (hl : v.stack.get? (v.sp - 2) = some (.integer a))
    (hr : v.stack.get? (v.sp - 1) = some (.integer b)) :
    executeComparison v op
      = executeIntegerComparison { v with sp := v.sp - 2 } op (.integer a) (.integer b) := by
  unfold executeComparison
  rw [pop_some v (.integer b) (by omega) hr]
  simp only []
  rw [pop_some { v with sp := v.sp - 1 } (.integer a) (by simp; omega)
    (by simp only []; rw [show v.sp - 1 - 1 = v.sp - 2 from by omega]; exact hl)]
  norm_num [typeOf, Nat.sub_sub]

theorem executeComparison_fallback (v : VM) (op : Nat) (l r : Obj) (lt rt : String)
    (hsp : 2 ≤ v.sp)
    (hl : v.stack.get? (v.sp - 2) = some l)
    (hr : v.stack.get? (v.sp - 1) = some r)
    (hlt : typeOf l = some lt) (hrt : typeOf r = some rt)
    (hni : ¬(lt = INTEGER_OBJ ∧ rt = INTEGER_OBJ)) :
    executeComparison v op
      = if op = OpEqual then
          push { v with sp := v.sp - 2 } (nativeBoolToBoolean (identEq r l))
        else if op = OpNotEqual then
          push { v with sp := v.sp - 2 } (nativeBoolToBoolean (!identEq r l))
        else
          .err ("unknown operator " ++ toString op ++ " (" ++ lt ++ " " ++ rt ++ ")")
            { v with sp := v.sp - 2 } := by
  unfold executeComparison
  rw [pop_some v r (by omega) hr]
  simp only []
  rw [pop_some { v with sp := v.sp - 1 } l (by simp; omega)
    (by simp only []; rw [show v.sp - 1 - 1 = v.sp - 2 from by omega]; exact hl)]
  simp only [hlt, hrt, Nat.sub_sub]
  by_cases h1 : lt = INTEGER_OBJ
  · have h2 : rt ≠ INTEGER_OBJ := fun h => hni ⟨h1, h⟩
    rw [if_pos h1, if_neg h2]
  · rw [if_neg h1]

theorem runLoop_skip (vm : VM) (op : Nat) (rest : List Nat)
    (h0 : op ≠ OpConstant) (h1 : op ≠ OpAdd) (h3 : op ≠ OpSub) (h4 : op ≠ OpMul)
    (h5 : op ≠ OpDiv) (h2 : op ≠ OpPop) (h6 : op ≠ OpTrue) (h7 : op ≠ OpFalse)
    (h8 : op ≠ OpEqual) (h9 : op ≠ OpNotEqual) (h10 : op ≠ OpGreaterThan)
    (h11 : op ≠ OpMinus) (h12 : op ≠ OpBang) :
    runLoop vm (op :: rest) = runLoop vm rest := by
  rw [runLoop.eq_def]
  simp [h0, h1, h3, h4, h5, h2, h6, h7, h8, h9, h10, h11, h12]

theorem contants_New (ins : List Nat) (cs : List Obj) : (New ins cs).contants = cs := rfl

theorem executeBinaryIntegerOperation_add (v : VM) (a b : Int) :
    executeBinaryIntegerOperation v OpAdd (.integer a) (.integer b)
      = push v (.integer (wrap64 (a + b))) := by
  norm_num [executeBinaryIntegerOperation, OpAdd]

theorem executeBinaryIntegerOperation_sub (v : VM) (a b : Int) :
    executeBinaryIntegerOperation v OpSub (.integer a) (.integer b)
      = push v (.integer (wrap64 (a - b))) := by
  norm_num [executeBinaryIntegerOperation, OpAdd, OpSub]

theorem executeBinaryIntegerOperation_mul (v : VM) (a b : Int) :
    executeBinaryIntegerOperation v OpMul (.integer a) (.integer b)
      = push v (.integer (wrap64 (a * b))) := by
  norm_num [executeBinaryIntegerOperation, OpAdd, OpSub, OpMul]

theorem executeBinaryIntegerOperation_div (v : VM) (a b : Int) (hb : b ≠ 0) :
    executeBinaryIntegerOperation v OpDiv (.integer a) (.integer b)
      = push v (.integer (wrap64 (Int.tdiv a b))) := by
  norm_num [executeBinaryIntegerOperation, OpAdd, OpSub, OpMul, OpDiv, hb]

theorem executeBinaryIntegerOperation_div_zero (v : VM) (a : Int) :
    executeBinaryIntegerOperation v OpDiv (.integer a) (.integer 0)
      = .crash ("runtime error: integer divide by zero") := by
  norm_num [executeBinaryIntegerOperation, OpAdd, OpSub, OpMul, OpDiv]

theorem executeBinaryIntegerOperation_unknown (v : VM) (a b : Int) (op : Nat)
    (h1 : op ≠ OpAdd) (h2 : op ≠ OpSub) (h3 : op ≠ OpMul) (h4 : op ≠ OpDiv) :
    executeBinaryIntegerOperation v op (.integer a) (.integer b)
      = .err ("unknown integer operator: " ++ toString op) v := by
  norm_num [executeBinaryIntegerOperation, h1, h2, h3, h4]

theorem executeIntegerComparison_eq (v : VM) (a b : Int) :
    executeIntegerComparison v OpEqual (.integer a) (.integer b)
      = push v (nativeBoolToBoolean (b == a)) := by
  norm_num [executeIntegerComparison, OpEqual]

theorem executeIntegerComparison_ne (v : VM) (a b : Int) :
    executeIntegerComparison v OpNotEqual (.integer a) (.integer b)
      = push v (nativeBoolToBoolean (b != a)) := by
  norm_num [executeIntegerComparison, OpEqual, OpNotEqual]

theorem executeIntegerComparison_gt (v : VM) (a b : Int) :
    executeIntegerComparison v OpGreaterThan (.integer a) (.integer b)
      = push v (nativeBoolToBoolean (decide (a > b))) := by
  norm_num [executeIntegerComparison, OpEqual, OpNotEqual, OpGreaterThan]

theorem executeIntegerComparison_unknown (v : VM) (a b : Int) (op : Nat)
    (h1 : op ≠ OpEqual) (h2 : op ≠ OpNotEqual) (h3 : op ≠ OpGreaterThan) :
    executeIntegerComparison v op (.integer a) (.integer b)
      = .err ("unknown operator: " ++ toString op) v := by
  norm_num [executeIntegerComparison, h1, h2, h3]

theorem executeBangOperator_pops (v : VM) (o : Obj) (hsp : v.sp ≠ 0)
    (htop : v.stack.get? (v.sp - 1) = some o) :
    executeBangOperator v
      = push { v with sp := v.sp - 1 }
          (if o = True then False else if o = False then True else False) := by
  unfold executeBangOperator
  rw [pop_some v o hsp htop]
  rcases o with n | c | k | _
  · rw [if_neg (by simp [True]), if_neg (by simp [False])]
  · rcases c with _ | _ <;> norm_num [True, False]
  · rw [if_neg (by simp [True]), if_neg (by simp [False])]
  · rw [if_neg (by simp [True]), if_neg (by simp [False])]

theorem executeMinusOperator_int (v : VM) (n : Int) (hsp : v.sp ≠ 0)
    (htop : v.stack.get? (v.sp - 1) = some (.integer n)) :
    executeMinusOperator v = push { v with sp := v.sp - 1 } (.integer (wrap64 (-n))) := by
  unfold executeMinusOperator
  rw [pop_some v (.integer n) hsp htop]
  norm_num [typeOf]

theorem executeMinusOperator_typeErr (v : VM) (o : Obj) (t : String) (hsp : v.sp ≠ 0)
    (htop : v.stack.get? (v.sp - 1) = some o)
    (ht : typeOf o = some t) (hne : t ≠ INTEGER_OBJ) :
    executeMinusOperator v
      = .err ("unsupported type for negation: " ++ t) { v with sp := v.sp - 1 } := by
  unfold executeMinusOperator
  rw [pop_some v o hsp htop]
  simp only [ht]
  rw [if_pos hne]

theorem runLoop_replicate_trues : ∀ (n : Nat) (v : VM),
    v.sp + n ≤ StackSize → v.sp + n ≤ v.stack.size →
    ∃ v2, runLoop v (List.replicate n OpTrue) = .ok v2 ∧
      v2.sp = v.sp + n ∧ v2.stack.size = v.stack.size := by
  intro n
  induction n with
  | zero =>
    intro v _ _
    exact ⟨v, by rw [List.replicate_zero, runLoop_nil], by omega, rfl⟩
  | succ n ih =>
    intro v hss hsz
    obtain ⟨v1, hp1, hsp1, _, hsz1, _, _, _⟩ := push_spec v True (by omega) (by omega)
    obtain ⟨v2, hrun, hsp2, hsz2⟩ := ih v1 (by omega) (by omega)
    refine ⟨v2, ?_, by omega, by rw [hsz2, hsz1]⟩
    rw [List.replicate_succ, runLoop_true, hp1]
    exact hrun

end Vm

/-- Claim C10: pushing at capacity (`sp = StackSize`) yields the
stack-overflow error with the receiver unchanged; pushing below capacity
(with the slot in range of the backing array, as `New` guarantees)
stores at `stack[sp]`, increments `sp`, keeps `sp ≤ StackSize`, and
alters no other slot. -/
theorem c10_push_discipline (v : Vm.VM) (o : Vm.Obj) :
    (v.sp = Vm.StackSize → Vm.push v o = Vm.Res.err ("stack overflow") v) ∧
    (v.sp < Vm.StackSize → v.sp < v.stack.size →
      ∃ v2, Vm.push v o = Vm.Res.ok v2 ∧ v2.stack.get? v.sp = some o ∧
        v2.sp = v.sp + 1 ∧ v2.sp ≤ Vm.StackSize ∧
        (∀ j, j ≠ v.sp → v2.stack.get? j = v.stack.get? j)) := by
  constructor
  · intro h
    exact Vm.push_overflow v o (by omega)
  · intro h1 h2
    obtain ⟨v2, hp, hsp, htop, hsz, _, _, hother⟩ := Vm.push_spec v o h1 h2
    refine ⟨v2, hp, ?_, hsp, by omega, hother⟩
    simpa [Vm.top, hsp] using htop

/-- Witness for C10 at a full stack (`sp = 2048`) and at an empty
one-slot stack. -/
theorem c10_push_discipline_witness :
    (Vm.push ⟨[], [], #[], 2048⟩ Vm.True = Vm.Res.err ("stack overflow") ⟨[], [], #[], 2048⟩) ∧
    (∃ v2, Vm.push ⟨[], [], #[Vm.Obj.nilObj], 0⟩ Vm.True = Vm.Res.ok v2 ∧
      v2.stack.get? 0 = some Vm.True ∧ v2.sp = 0 + 1 ∧ v2.sp ≤ Vm.StackSize ∧
      (∀ j, j ≠ 0 → v2.stack.get? j = (Vm.VM.mk [] [] #[Vm.Obj.nilObj] 0).stack.get? j)) :=
  ⟨(c10_push_discipline ⟨[], [], #[], 2048⟩ Vm.True).1 rfl,
   (c10_push_discipline ⟨[], [], #[Vm.Obj.nilObj], 0⟩ Vm.True).2 (by decide) (by decide)⟩

/-- Claim C7: dividing by an Integer zero is not guarded: the VM yields
no `error` value of its own — the Go runtime panic of the host division
aborts execution (`Res.crash`, never `Res.err`), both at the operator
level and through a whole `Run`. -/
theorem c7_division_by_zero_host_fault (v : Vm.VM) (a : Int) :
    Vm.executeBinaryIntegerOperation v Vm.OpDiv (.integer a) (.integer 0)
      = Vm.Res.crash ("runtime error: integer divide by zero") ∧
    (Vm.executeBinaryIntegerOperation v Vm.OpDiv (.integer a) (.integer 0)).errMsg = none ∧
    Vm.Run (Vm.New [Vm.OpConstant, 0, 0, Vm.OpConstant, 0, 1, Vm.OpDiv]
        [Vm.Obj.integer 7, Vm.Obj.integer 0])
      = Vm.Res.crash ("runtime error: integer divide by zero") := by
  refine ⟨Vm.executeBinaryIntegerOperation_div_zero v a,
    by rw [Vm.executeBinaryIntegerOperation_div_zero v a]; rfl, ?_⟩
  set v0 := Vm.New [Vm.OpConstant, 0, 0, Vm.OpConstant, 0, 1, Vm.OpDiv]
    [Vm.Obj.integer 7, Vm.Obj.integer 0] with hv0
  obtain ⟨v1, hp1, hsp1, htop1, hsz1, hc1, hi1, ho1⟩ :=
    Vm.push_spec v0 (Vm.Obj.integer 7)
      (by rw [hv0, Vm.sp_New]; norm_num [Vm.StackSize])
      (by rw [hv0, Vm.sp_New, Vm.stackSize_New]; norm_num [Vm.StackSize])
  obtain ⟨v2, hp2, hsp2, htop2, hsz2, hc2, hi2, ho2⟩ :=
    Vm.push_spec v1 (Vm.Obj.integer 0)
      (by rw [hsp1, hv0, Vm.sp_New]; norm_num [Vm.StackSize])
      (by rw [hsp1, hsz1, hv0, Vm.sp_New, Vm.stackSize_New]; norm_num [Vm.StackSize])
  have hsp0 : v0.sp = 0 := by rw [hv0, Vm.sp_New]
  have hbin : Vm.executeBinaryOperation v2 Vm.OpDiv
      = Vm.executeBinaryIntegerOperation { v2 with sp := v2.sp - 2 } Vm.OpDiv
          (.integer 7) (.integer 0) := by
    apply Vm.executeBinaryOperation_ints
    · omega
    · rw [show v2.sp - 2 = v0.sp from by omega, ho2 v0.sp (by omega),
        show v0.sp = v1.sp - 1 from by omega]
      exact htop1
    · exact htop2
  unfold Vm.Run
  rw [show v0.instructions = [Vm.OpConstant, 0, 0, Vm.OpConstant, 0, 1, Vm.OpDiv] from by
    rw [hv0, Vm.instructions_New]]
  rw [Vm.runLoop_constant,
    show v0.contants.get? (0 * 256 + 0) = some (Vm.Obj.integer 7) from by
      rw [hv0, Vm.contants_New]; rfl]
  simp only []
  rw [hp1]
  simp only []
  rw [Vm.runLoop_constant,
    show v1.contants.get? (0 * 256 + 1) = some (Vm.Obj.integer 0) from by
      rw [hc1, hv0, Vm.contants_New]; rfl]
  simp only []
  rw [hp2]
  simp only []
  rw [Vm.runLoop_binary v2 Vm.OpDiv [] (by norm_num [Vm.OpAdd, Vm.OpSub, Vm.OpMul, Vm.OpDiv]),
    hbin, Vm.executeBinaryIntegerOperation_div_zero]

/-- Counterexample to claim C2 as stated: at `a = -2^63, b = -1` (both
int64 values, `b` nonzero) the divide opcode pushes `-2^63`, whereas the
truncating integer quotient of `a` by `b` is `2^63`; the Go quotient
wraps (Go defines `MinInt64 / -1 = MinInt64`). -/
theorem c2_divide_min_int_counterexample :
    Vm.executeBinaryOperation ⟨[], [], #[Vm.Obj.integer (-(2 ^ 63)), Vm.Obj.integer (-1)], 2⟩
        Vm.OpDiv
      = Vm.Res.ok ⟨[], [], #[Vm.Obj.integer (-(2 ^ 63)), Vm.Obj.integer (-1)], 1⟩ ∧
    Int.tdiv (-(2 ^ 63)) (-1) = 2 ^ 63 ∧ ((-(2 ^ 63) : Int) ≠ 2 ^ 63) := by
  refine ⟨by decide, by decide, by decide⟩

/-- Claim C2 (amended): with `a` pushed first and `b` second, add /
subtract / multiply pop right before left and push `a+b`, `a-b`, `a*b`
reduced by 64-bit two's-complement wraparound, and divide with `b`
nonzero pushes the truncating quotient likewise reduced by wraparound
(which differs from the plain truncating quotient only at
`a = -2^63, b = -1`). -/
theorem c2_binary_arith_wraparound (v : Vm.VM) (a b : Int)
    (hsp : 2 ≤ v.sp) (hss : v.sp ≤ Vm.StackSize) (hsz : v.sp ≤ v.stack.size)
    (_ha : Vm.isInt64 a) (_hb : Vm.isInt64 b)
    (hl : v.stack.get? (v.sp - 2) = some (.integer a))
    (hr : v.stack.get? (v.sp - 1) = some (.integer b)) :
    (∃ v2, Vm.executeBinaryOperation v Vm.OpAdd = Vm.Res.ok v2 ∧ v2.sp = v.sp - 1 ∧
      Vm.top v2 = some (.integer (Vm.wrap64 (a + b)))) ∧
    (∃ v2, Vm.executeBinaryOperation v Vm.OpSub = Vm.Res.ok v2 ∧ v2.sp = v.sp - 1 ∧
      Vm.top v2 = some (.integer (Vm.wrap64 (a - b)))) ∧
    (∃ v2, Vm.executeBinaryOperation v Vm.OpMul = Vm.Res.ok v2 ∧ v2.sp = v.sp - 1 ∧
      Vm.top v2 = some (.integer (Vm.wrap64 (a * b)))) ∧
    (b ≠ 0 → ∃ v2, Vm.executeBinaryOperation v Vm.OpDiv = Vm.Res.ok v2 ∧ v2.sp = v.sp - 1 ∧
      Vm.top v2 = some (.integer (Vm.wrap64 (Int.tdiv a b)))) := by
  have hps : ∀ o : Vm.Obj, ∃ v2, Vm.push { v with sp := v.sp - 2 } o = Vm.Res.ok v2 ∧
      v2.sp = v.sp - 1 ∧ Vm.top v2 = some o := by
    intro o
    obtain ⟨v2, hp, hsp2, htop2, _, _, _, _⟩ :=
      Vm.push_spec { v with sp := v.sp - 2 } o (by simp only []; omega) (by simp only []; omega)
    exact ⟨v2, hp, by simp only [] at hsp2; omega, htop2⟩
  refine ⟨?_, ?_, ?_, fun hb0 => ?_⟩
  · obtain ⟨v2, hp, h1, h2⟩ := hps (.integer (Vm.wrap64 (a + b)))
    exact ⟨v2, by rw [Vm.executeBinaryOperation_ints v _ a b hsp hl hr,
      Vm.executeBinaryIntegerOperation_add, hp], h1, h2⟩
  · obtain ⟨v2, hp, h1, h2⟩ := hps (.integer (Vm.wrap64 (a - b)))
    exact ⟨v2, by rw [Vm.executeBinaryOperation_ints v _ a b hsp hl hr,
      Vm.executeBinaryIntegerOperation_sub, hp], h1, h2⟩
  · obtain ⟨v2, hp, h1, h2⟩ := hps (.integer (Vm.wrap64 (a * b)))
    exact ⟨v2, by rw [Vm.executeBinaryOperation_ints v _ a b hsp hl hr,
      Vm.executeBinaryIntegerOperation_mul, hp], h1, h2⟩
  · obtain ⟨v2, hp, h1, h2⟩ := hps (.integer (Vm.wrap64 (Int.tdiv a b)))
    exact ⟨v2, by rw [Vm.executeBinaryOperation_ints v _ a b hsp hl hr,
      Vm.executeBinaryIntegerOperation_div _ _ _ hb0, hp], h1, h2⟩

/-- Witness for C2 at the stack `[7, 3]`. -/
theorem c2_binary_arith_wraparound_witness :
    (∃ v2, Vm.executeBinaryOperation ⟨[], [], #[Vm.Obj.integer 7, Vm.Obj.integer 3], 2⟩
        Vm.OpAdd = Vm.Res.ok v2 ∧ v2.sp = 2 - 1 ∧
      Vm.top v2 = some (.integer (Vm.wrap64 (7 + 3)))) ∧
    (∃ v2, Vm.executeBinaryOperation ⟨[], [], #[Vm.Obj.integer 7, Vm.Obj.integer 3], 2⟩
        Vm.OpSub = Vm.Res.ok v2 ∧ v2.sp = 2 - 1 ∧
      Vm.top v2 = some (.integer (Vm.wrap64 (7 - 3)))) ∧
    (∃ v2, Vm.executeBinaryOperation ⟨[], [], #[Vm.Obj.integer 7, Vm.Obj.integer 3], 2⟩
        Vm.OpMul = Vm.Res.ok v2 ∧ v2.sp = 2 - 1 ∧
      Vm.top v2 = some (.integer (Vm.wrap64 (7 * 3)))) ∧
    (∃ v2, Vm.executeBinaryOperation
        ⟨[], [], #[Vm.Obj.integer 7, Vm.Obj.integer 3], 2⟩ Vm.OpDiv = Vm.Res.ok v2 ∧
      v2.sp = 2 - 1 ∧ Vm.top v2 = some (.integer (Vm.wrap64 (Int.tdiv 7 3)))) := by
  have h := c2_binary_arith_wraparound ⟨[], [], #[Vm.Obj.integer 7, Vm.Obj.integer 3], 2⟩ 7 3
    (by decide) (by decide) (by decide) (by norm_num [Vm.isInt64]) (by norm_num [Vm.isInt64])
    (by decide) (by decide)
  exact ⟨h.1, h.2.1, h.2.2.1, h.2.2.2 (by decide)⟩

/-- Claim C8: the bang opcode maps the singleton `True` to `False`, the
singleton `False` to `True`, and any operand that is not one of the two
boolean singletons to `False`, never erring. -/
theorem c8_bang_semantics (v : Vm.VM) (o : Vm.Obj)
    (hsp : 1 ≤ v.sp) (hss : v.sp ≤ Vm.StackSize) (hsz : v.sp ≤ v.stack.size)
    (htop : v.stack.get? (v.sp - 1) = some o) :
    (o = Vm.True → ∃ v2, Vm.executeBangOperator v = Vm.Res.ok v2 ∧
      v2.sp = v.sp ∧ Vm.top v2 = some Vm.False) ∧
    (o = Vm.False → ∃ v2, Vm.executeBangOperator v = Vm.Res.ok v2 ∧
      v2.sp = v.sp ∧ Vm.top v2 = some Vm.True) ∧
    ((∀ c : Bool, o ≠ Vm.Obj.boolean c) → ∃ v2, Vm.executeBangOperator v = Vm.Res.ok v2 ∧
      v2.sp = v.sp ∧ Vm.top v2 = some Vm.False) := by
  have hreach := Vm.executeBangOperator_pops v o (by omega) htop
  have hps : ∀ r : Vm.Obj, ∃ v2, Vm.push { v with sp := v.sp - 1 } r = Vm.Res.ok v2 ∧
      v2.sp = v.sp ∧ Vm.top v2 = some r := by
    intro r
    obtain ⟨v2, hp, hsp2, htop2, _, _, _, _⟩ :=
      Vm.push_spec { v with sp := v.sp - 1 } r (by simp only []; omega) (by simp only []; omega)
    exact ⟨v2, hp, by simp only [] at hsp2; omega, htop2⟩
  refine ⟨fun h => ?_, fun h => ?_, fun h => ?_⟩
  · obtain ⟨v2, hp, h1, h2⟩ := hps Vm.False
    exact ⟨v2, by rw [hreach, h, if_pos rfl, hp], h1, h2⟩
  · obtain ⟨v2, hp, h1, h2⟩ := hps Vm.True
    exact ⟨v2, by rw [hreach, h, if_neg (by decide), if_pos rfl, hp], h1, h2⟩
  · obtain ⟨v2, hp, h1, h2⟩ := hps Vm.False
    refine ⟨v2, ?_, h1, h2⟩
    rw [hreach, if_neg (by simpa [Vm.True] using h true),
      if_neg (by simpa [Vm.False] using h false), hp]

/-- Witness for C8 on the singleton operands and on an integer
operand. -/
theorem c8_bang_semantics_witness :
    (∃ v2, Vm.executeBangOperator ⟨[], [], #[Vm.True], 1⟩ = Vm.Res.ok v2 ∧
      v2.sp = 1 ∧ Vm.top v2 = some Vm.False) ∧
    (∃ v2, Vm.executeBangOperator ⟨[], [], #[Vm.False], 1⟩ = Vm.Res.ok v2 ∧
      v2.sp = 1 ∧ Vm.top v2 = some Vm.True) ∧
    (∃ v2, Vm.executeBangOperator ⟨[], [], #[Vm.Obj.integer 5], 1⟩ = Vm.Res.ok v2 ∧
      v2.sp = 1 ∧ Vm.top v2 = some Vm.False) :=
  ⟨(c8_bang_semantics ⟨[], [], #[Vm.True], 1⟩ Vm.True
      (by decide) (by decide) (by decide) (by decide)).1 rfl,
   (c8_bang_semantics ⟨[], [], #[Vm.False], 1⟩ Vm.False
      (by decide) (by decide) (by decide) (by decide)).2.1 rfl,
   (c8_bang_semantics ⟨[], [], #[Vm.Obj.integer 5], 1⟩ (Vm.Obj.integer 5)
      (by decide) (by decide) (by decide) (by decide)).2.2 (fun c => by simp)⟩

/-- Counterexample to claim C9 as stated: at `n = -2^63` the minus
opcode pushes `-2^63` again (Go 64-bit negation wraps), not the value
`-n = 2^63`. -/
theorem c9_minus_min_int_counterexample :
    Vm.executeMinusOperator ⟨[], [], #[Vm.Obj.integer (-(2 ^ 63))], 1⟩
      = Vm.Res.ok ⟨[], [], #[Vm.Obj.integer (-(2 ^ 63))], 1⟩ ∧
    (-(-(2 ^ 63) : Int) = 2 ^ 63) ∧ ((-(2 ^ 63) : Int) ≠ 2 ^ 63) :=
  ⟨by decide, by decide, by decide⟩

/-- Claim C9 (amended): the minus opcode on an Integer operand `n`
pushes `-n` reduced by 64-bit wraparound (equal to `-n` except at
`n = -2^63`, which maps to itself) without error; on any non-Integer
kind it returns the type error naming the offending kind and `Run`
fails — the dispatch loop stops at that instruction and returns the
error to the caller, shown generally at the loop level and on a whole
run. -/
theorem c9_minus_semantics (v : Vm.VM) (o : Vm.Obj)
    (hsp : 1 ≤ v.sp) (hss : v.sp ≤ Vm.StackSize) (hsz : v.sp ≤ v.stack.size)
    (htop : v.stack.get? (v.sp - 1) = some o) :
    (∀ n : Int, o = .integer n → ∃ v2, Vm.executeMinusOperator v = Vm.Res.ok v2 ∧
      v2.sp = v.sp ∧ Vm.top v2 = some (.integer (Vm.wrap64 (-n)))) ∧
    (∀ t, Vm.typeOf o = some t → t ≠ Vm.INTEGER_OBJ →
      Vm.executeMinusOperator v
        = Vm.Res.err ("unsupported type for negation: " ++ t) { v with sp := v.sp - 1 } ∧
      (∀ rest : List Nat, Vm.runLoop v (Vm.OpMinus :: rest)
        = Vm.Res.err ("unsupported type for negation: " ++ t) { v with sp := v.sp - 1 })) ∧
    (Vm.Run (Vm.New [Vm.OpFalse, Vm.OpMinus] [])).errMsg
      = some ("unsupported type for negation: " ++ Vm.BOOLEAN_OBJ) := by
  refine ⟨?_, ?_, ?_⟩
  · intro n h
    subst h
    obtain ⟨v2, hp, hsp2, htop2, _, _, _, _⟩ :=
      Vm.push_spec { v with sp := v.sp - 1 } (.integer (Vm.wrap64 (-n)))
        (by simp only []; omega) (by simp only []; omega)
    refine ⟨v2, ?_, by simp only [] at hsp2; omega, htop2⟩
    rw [Vm.executeMinusOperator_int v n (by omega) htop, hp]
  · intro t ht hne
    have herr := Vm.executeMinusOperator_typeErr v o t (by omega) htop ht hne
    refine ⟨herr, fun rest => ?_⟩
    rw [Vm.runLoop_minus, herr]
  · set w0 := Vm.New [Vm.OpFalse, Vm.OpMinus] [] with hw0
    obtain ⟨w1, hp1, hsp1, htop1, hsz1, _, _, ho1⟩ :=
      Vm.push_spec w0 Vm.False
        (by rw [hw0, Vm.sp_New]; norm_num [Vm.StackSize])
        (by rw [hw0, Vm.sp_New, Vm.stackSize_New]; norm_num [Vm.StackSize])
    have hw0sp : w0.sp = 0 := by rw [hw0, Vm.sp_New]
    have hminus : Vm.executeMinusOperator w1
        = Vm.Res.err ("unsupported type for negation: " ++ Vm.BOOLEAN_OBJ)
            { w1 with sp := w1.sp - 1 } :=
      Vm.executeMinusOperator_typeErr w1 Vm.False Vm.BOOLEAN_OBJ (by omega) htop1 rfl
        (by decide)
    unfold Vm.Run
    rw [show w0.instructions = [Vm.OpFalse, Vm.OpMinus] from by rw [hw0, Vm.instructions_New]]
    rw [Vm.runLoop_false, hp1]
    simp only []
    rw [Vm.runLoop_minus, hminus]
    rfl

/-- Witness for C9 on an integer operand, a boolean operand (operator,
loop and whole-run levels). -/
theorem c9_minus_semantics_witness :
    (∃ v2, Vm.executeMinusOperator ⟨[], [], #[Vm.Obj.integer 5], 1⟩ = Vm.Res.ok v2 ∧
      v2.sp = 1 ∧ Vm.top v2 = some (.integer (Vm.wrap64 (-5)))) ∧
    (Vm.executeMinusOperator ⟨[], [], #[Vm.Obj.boolean true], 1⟩
      = Vm.Res.err ("unsupported type for negation: " ++ Vm.BOOLEAN_OBJ)
          ⟨[], [], #[Vm.Obj.boolean true], 0⟩) ∧
    (Vm.runLoop ⟨[], [], #[Vm.Obj.boolean true], 1⟩ [Vm.OpMinus]
      = Vm.Res.err ("unsupported type for negation: " ++ Vm.BOOLEAN_OBJ)
          ⟨[], [], #[Vm.Obj.boolean true], 0⟩) ∧
    (Vm.Run (Vm.New [Vm.OpFalse, Vm.OpMinus] [])).errMsg
      = some ("unsupported type for negation: " ++ Vm.BOOLEAN_OBJ) := by
  have h1 := (c9_minus_semantics ⟨[], [], #[Vm.Obj.integer 5], 1⟩ (Vm.Obj.integer 5)
      (by decide) (by decide) (by decide) (by decide)).1 5 rfl
  have h2 := c9_minus_semantics ⟨[], [], #[Vm.Obj.boolean true], 1⟩ (Vm.Obj.boolean true)
      (by decide) (by decide) (by decide) (by decide)
  exact ⟨h1, (h2.2.1 Vm.BOOLEAN_OBJ (by decide) (by decide)).1,
    (h2.2.1 Vm.BOOLEAN_OBJ (by decide) (by decide)).2 [], h2.2.2⟩

/-- Claim C3: on two Integer operands the comparison opcodes yield the
mathematically correct singleton boolean; on every non-both-Integer
kind pairing, equal and not-equal fall back to identity/reference
equality of the two popped operands (so identical non-integer operands
compare equal to `True`, and a boolean against an integer — never
identical — compares equal to `False` and not-equal to `True`), while
greater-than is the error naming the operator and both operand kinds;
and every produced boolean is one of the two singletons. -/
theorem c3_comparison_semantics :
    (∀ (v : Vm.VM) (a b : Int), 2 ≤ v.sp → v.sp ≤ Vm.StackSize → v.sp ≤ v.stack.size →
      v.stack.get? (v.sp - 2) = some (.integer a) →
      v.stack.get? (v.sp - 1) = some (.integer b) →
      (∃ v2, Vm.executeComparison v Vm.OpEqual = Vm.Res.ok v2 ∧ v2.sp = v.sp - 1 ∧
        Vm.top v2 = some (if a = b then Vm.True else Vm.False)) ∧
      (∃ v2, Vm.executeComparison v Vm.OpNotEqual = Vm.Res.ok v2 ∧ v2.sp = v.sp - 1 ∧
        Vm.top v2 = some (if a = b then Vm.False else Vm.True)) ∧
      (∃ v2, Vm.executeComparison v Vm.OpGreaterThan = Vm.Res.ok v2 ∧ v2.sp = v.sp - 1 ∧
        Vm.top v2 = some (if a > b then Vm.True else Vm.False))) ∧
    (∀ (w : Vm.VM) (l r : Vm.Obj) (lt rt : String), 2 ≤ w.sp → w.sp ≤ Vm.StackSize →
      w.sp ≤ w.stack.size →
      w.stack.get? (w.sp - 2) = some l → w.stack.get? (w.sp - 1) = some r →
      Vm.typeOf l = some lt → Vm.typeOf r = some rt →
      ¬(lt = Vm.INTEGER_OBJ ∧ rt = Vm.INTEGER_OBJ) →
      (∃ w2, Vm.executeComparison w Vm.OpEqual = Vm.Res.ok w2 ∧ w2.sp = w.sp - 1 ∧
        Vm.top w2 = some (Vm.nativeBoolToBoolean (Vm.identEq r l))) ∧
      (∃ w2, Vm.executeComparison w Vm.OpNotEqual = Vm.Res.ok w2 ∧ w2.sp = w.sp - 1 ∧
        Vm.top w2 = some (Vm.nativeBoolToBoolean (!Vm.identEq r l))) ∧
      Vm.executeComparison w Vm.OpGreaterThan
        = Vm.Res.err ("unknown operator " ++ toString Vm.OpGreaterThan ++ " (" ++
            lt ++ " " ++ rt ++ ")") { w with sp := w.sp - 2 }) ∧
    ((∀ o : Vm.Obj, (∀ n : Int, o ≠ .integer n) → Vm.identEq o o = true) ∧
     (∀ (c : Bool) (n : Int), Vm.identEq (.boolean c) (.integer n) = false ∧
       Vm.identEq (.integer n) (.boolean c) = false)) ∧
    (∀ c : Bool, Vm.nativeBoolToBoolean c = Vm.True ∨ Vm.nativeBoolToBoolean c = Vm.False) := by
  refine ⟨?_, ?_, ⟨?_, ?_⟩, ?_⟩
  · intro v a b hsp hss hsz hl hr
    have hps : ∀ r : Vm.Obj, ∃ v2, Vm.push { v with sp := v.sp - 2 } r = Vm.Res.ok v2 ∧
        v2.sp = v.sp - 1 ∧ Vm.top v2 = some r := by
      intro r
      obtain ⟨v2, hp, hsp2, htop2, _, _, _, _⟩ :=
        Vm.push_spec { v with sp := v.sp - 2 } r (by simp only []; omega) (by simp only []; omega)
      exact ⟨v2, hp, by simp only [] at hsp2; omega, htop2⟩
    have heqv : Vm.nativeBoolToBoolean (b == a) = if a = b then Vm.True else Vm.False := by
      by_cases h : a = b
      · subst h
        simp [Vm.nativeBoolToBoolean]
      · have hba : (b == a) = false := by
          simpa using fun hh => h hh.symm
        rw [Vm.nativeBoolToBoolean, hba, if_neg h]
        simp
    have hnev : Vm.nativeBoolToBoolean (b != a) = if a = b then Vm.False else Vm.True := by
      by_cases h : a = b
      · subst h
        simp [Vm.nativeBoolToBoolean]
      · have hba : (b != a) = true := by
          simpa using fun hh => h hh.symm
        rw [Vm.nativeBoolToBoolean, hba, if_neg h]
        simp
    have hgtv : Vm.nativeBoolToBoolean (decide (a > b)) = if a > b then Vm.True else Vm.False := by
      by_cases h : a > b
      · simp [Vm.nativeBoolToBoolean, h]
      · simp [Vm.nativeBoolToBoolean, h]
    refine ⟨?_, ?_, ?_⟩
    · obtain ⟨v2, hp, h1, h2⟩ := hps (if a = b then Vm.True else Vm.False)
      exact ⟨v2, by rw [Vm.executeComparison_ints v _ a b hsp hl hr,
        Vm.executeIntegerComparison_eq, heqv, hp], h1, h2⟩
    · obtain ⟨v2, hp, h1, h2⟩ := hps (if a = b then Vm.False else Vm.True)
      exact ⟨v2, by rw [Vm.executeComparison_ints v _ a b hsp hl hr,
        Vm.executeIntegerComparison_ne, hnev, hp], h1, h2⟩
    · obtain ⟨v2, hp, h1, h2⟩ := hps (if a > b then Vm.True else Vm.False)
      exact ⟨v2, by rw [Vm.executeComparison_ints v _ a b hsp hl hr,
        Vm.executeIntegerComparison_gt, hgtv, hp], h1, h2⟩
  · intro w l r lt rt hsp hss hsz hl hr hlt hrt hni
    have hfall := fun op => Vm.executeComparison_fallback w op l r lt rt hsp hl hr hlt hrt hni
    have hps : ∀ x : Vm.Obj, ∃ w2, Vm.push { w with sp := w.sp - 2 } x = Vm.Res.ok w2 ∧
        w2.sp = w.sp - 1 ∧ Vm.top w2 = some x := by
      intro x
      obtain ⟨w2, hp, hsp2, htop2, _, _, _, _⟩ :=
        Vm.push_spec { w with sp := w.sp - 2 } x (by simp only []; omega) (by simp only []; omega)
      exact ⟨w2, hp, by simp only [] at hsp2; omega, htop2⟩
    refine ⟨?_, ?_, ?_⟩
    · obtain ⟨w2, hp, h1, h2⟩ := hps (Vm.nativeBoolToBoolean (Vm.identEq r l))
      exact ⟨w2, by rw [hfall Vm.OpEqual, if_pos rfl, hp], h1, h2⟩
    · obtain ⟨w2, hp, h1, h2⟩ := hps (Vm.nativeBoolToBoolean (!Vm.identEq r l))
      exact ⟨w2, by rw [hfall Vm.OpNotEqual, if_neg (by decide), if_pos rfl, hp], h1, h2⟩
    · rw [hfall Vm.OpGreaterThan, if_neg (by decide), if_neg (by decide)]
  · intro o h
    rcases o with n | c | ⟨k, i⟩ | _
    · exact absurd rfl (h n)
    · simp [Vm.identEq]
    · simp [Vm.identEq]
    · rfl
  · intro c n
    exact ⟨rfl, rfl⟩
  · intro c
    rcases c
    · right
      rfl
    · left
      rfl

/-- Witness for C3 at the stacks `[5, 3]` (integers), two identical
`other`-kind operands, and `[true, 3]` (boolean against integer), plus
the identity and singleton facts at concrete values. -/
theorem c3_comparison_semantics_witness :
    ((∃ v2, Vm.executeComparison ⟨[], [], #[Vm.Obj.integer 5, Vm.Obj.integer 3], 2⟩ Vm.OpEqual
        = Vm.Res.ok v2 ∧ v2.sp = 2 - 1 ∧
        Vm.top v2 = some (if (5 : Int) = 3 then Vm.True else Vm.False)) ∧
     (∃ v2, Vm.executeComparison ⟨[], [], #[Vm.Obj.integer 5, Vm.Obj.integer 3], 2⟩ Vm.OpNotEqual
        = Vm.Res.ok v2 ∧ v2.sp = 2 - 1 ∧
        Vm.top v2 = some (if (5 : Int) = 3 then Vm.False else Vm.True)) ∧
     (∃ v2, Vm.executeComparison ⟨[], [], #[Vm.Obj.integer 5, Vm.Obj.integer 3], 2⟩
          Vm.OpGreaterThan
        = Vm.Res.ok v2 ∧ v2.sp = 2 - 1 ∧
        Vm.top v2 = some (if (5 : Int) > 3 then Vm.True else Vm.False))) ∧
    (∃ w2, Vm.executeComparison
        ⟨[], [], #[Vm.Obj.other "STRING" 7, Vm.Obj.other "STRING" 7], 2⟩ Vm.OpEqual
      = Vm.Res.ok w2 ∧ w2.sp = 2 - 1 ∧ Vm.top w2 = some Vm.True) ∧
    ((∃ w2, Vm.executeComparison ⟨[], [], #[Vm.Obj.boolean true, Vm.Obj.integer 3], 2⟩
          Vm.OpEqual
        = Vm.Res.ok w2 ∧ w2.sp = 2 - 1 ∧ Vm.top w2 = some Vm.False) ∧
     (∃ w2, Vm.executeComparison ⟨[], [], #[Vm.Obj.boolean true, Vm.Obj.integer 3], 2⟩
          Vm.OpNotEqual
        = Vm.Res.ok w2 ∧ w2.sp = 2 - 1 ∧ Vm.top w2 = some Vm.True) ∧
     Vm.executeComparison ⟨[], [], #[Vm.Obj.boolean true, Vm.Obj.integer 3], 2⟩
         Vm.OpGreaterThan
       = Vm.Res.err ("unknown operator " ++ toString Vm.OpGreaterThan ++ " (" ++
           Vm.BOOLEAN_OBJ ++ " " ++ Vm.INTEGER_OBJ ++ ")")
           ⟨[], [], #[Vm.Obj.boolean true, Vm.Obj.integer 3], 0⟩) ∧
    (Vm.identEq (Vm.Obj.other "STRING" 7) (Vm.Obj.other "STRING" 7) = true ∧
     (Vm.identEq (.boolean true) (.integer 3) = false ∧
      Vm.identEq (.integer 3) (.boolean true) = false)) ∧
    (Vm.nativeBoolToBoolean true = Vm.True ∨ Vm.nativeBoolToBoolean true = Vm.False) :=
  ⟨c3_comparison_semantics.1 ⟨[], [], #[Vm.Obj.integer 5, Vm.Obj.integer 3], 2⟩ 5 3
      (by decide) (by decide) (by decide) (by decide) (by decide),
   (c3_comparison_semantics.2.1
      ⟨[], [], #[Vm.Obj.other "STRING" 7, Vm.Obj.other "STRING" 7], 2⟩
      (Vm.Obj.other "STRING" 7) (Vm.Obj.other "STRING" 7) "STRING" "STRING"
      (by decide) (by decide) (by decide) (by decide) (by decide) rfl rfl (by decide)).1,
   c3_comparison_semantics.2.1 ⟨[], [], #[Vm.Obj.boolean true, Vm.Obj.integer 3], 2⟩
      (Vm.Obj.boolean true) (Vm.Obj.integer 3) Vm.BOOLEAN_OBJ Vm.INTEGER_OBJ
      (by decide) (by decide) (by decide) (by decide) (by decide) rfl rfl (by decide),
   ⟨c3_comparison_semantics.2.2.1.1 (Vm.Obj.other "STRING" 7) (by intro n; simp),
    c3_comparison_semantics.2.2.1.2 true 3⟩,
   c3_comparison_semantics.2.2.2 true⟩

/-- Counterexample to claim C5 as stated: a run of 2048 pushes (stack
filled to capacity, no pop) completes successfully with `sp =
StackSize`, and `LastPoppedStackElement` then reads `stack[StackSize]`,
one past the backing array — an out-of-range read (Go index panic),
modelled by `none`. -/
theorem c5_full_capacity_out_of_bounds :
    Vm.runThenLastPopped (List.replicate 2048 Vm.OpTrue) [] = some none := by
  obtain ⟨v2, hrun, hsp, hsz⟩ :=
    Vm.runLoop_replicate_trues 2048 (Vm.New (List.replicate 2048 Vm.OpTrue) [])
      (by rw [Vm.sp_New]; norm_num [Vm.StackSize])
      (by rw [Vm.sp_New, Vm.stackSize_New]; norm_num [Vm.StackSize])
  have hR : Vm.Run (Vm.New (List.replicate 2048 Vm.OpTrue) []) = Vm.Res.ok v2 := by
    unfold Vm.Run
    rw [Vm.instructions_New]
    exact hrun
  rw [Vm.runThenLastPopped.eq_def, hR]
  simp only []
  have hge : v2.stack.size ≤ v2.sp := by
    rw [hsz, Vm.stackSize_New, hsp, Vm.sp_New]
    norm_num [Vm.StackSize]
  rw [Vm.LastPoppedStackElement, Array.get?_eq_getElem?, Array.getElem?_ge v2.stack hge]

/-- Claim C5 (amended): `LastPoppedStackElement` returns the value at
index `sp` — exactly the value the most recent pop vacated — and reads
in bounds whenever `sp` is strictly below the backing array's length;
when a run has pushed values up to full capacity (`sp = StackSize`) the
read is out of bounds (see the counterexample). -/
theorem c5_last_popped_contract :
    (∀ (v v2 : Vm.VM) (o : Vm.Obj),
      Vm.pop v = some (o, v2) → Vm.LastPoppedStackElement v2 = some o) ∧
    (∀ v : Vm.VM, v.sp < v.stack.size → (Vm.LastPoppedStackElement v).isSome = true) := by
  constructor
  · intro v v2 o h
    unfold Vm.pop at h
    by_cases hsp : v.sp = 0
    · rw [if_pos hsp] at h
      exact absurd h (by simp)
    · rw [if_neg hsp] at h
      cases hget : v.stack.get? (v.sp - 1) with
      | none =>
        rw [hget] at h
        exact absurd h (by simp)
      | some o2 =>
        rw [hget] at h
        simp only [Option.some.injEq, Prod.mk.injEq] at h
        obtain ⟨ho, hv⟩ := h
        rw [Vm.LastPoppedStackElement, ← hv]
        simp only []
        rw [hget, ho]
  · intro v h
    rw [Vm.LastPoppedStackElement, Array.get?_eq_getElem?, Array.getElem?_lt v.stack h]
    rfl

/-- Witness for C5: popping `9` leaves it readable at index `sp`, and a
below-capacity read is in bounds. -/
theorem c5_last_popped_contract_witness :
    Vm.LastPoppedStackElement ⟨[], [], #[Vm.Obj.integer 9], 0⟩ = some (Vm.Obj.integer 9) ∧
    (Vm.LastPoppedStackElement ⟨[], [], #[Vm.Obj.integer 9], 0⟩).isSome = true :=
  ⟨c5_last_popped_contract.1 ⟨[], [], #[Vm.Obj.integer 9], 1⟩ ⟨[], [], #[Vm.Obj.integer 9], 0⟩
      (Vm.Obj.integer 9) (by decide),
   c5_last_popped_contract.2 ⟨[], [], #[Vm.Obj.integer 9], 0⟩ (by decide)⟩

/-- Claim C1 (code bug): `Run` does stop at the first error of every
opcode class, but for the binary arithmetic opcodes it returns a nil
error instead of the operator error — `vm.go` line 47 reads
`if err != nil { return nil }` where every sibling branch returns
`err`.  Evaluated at the failing input `[OpTrue, OpTrue, OpAdd]`:
`executeBinaryOperation` reports an unsupported-types error, yet `Run`
reports success; by contrast the unary-minus error on
`[OpTrue, OpMinus]` is returned to the caller. -/
theorem c1_run_swallows_binary_error :
    (∀ vm : Vm.VM, Vm.runLoop vm [] = Vm.Res.ok vm) ∧
    (Vm.Run (Vm.New [Vm.OpTrue, Vm.OpTrue, Vm.OpAdd] [])).isOk = true ∧
    (Vm.Run (Vm.New [Vm.OpTrue, Vm.OpMinus] [])).errMsg
      = some ("unsupported type for negation: " ++ Vm.BOOLEAN_OBJ) := by
  refine ⟨Vm.runLoop_nil, ?_, ?_⟩
  · set v0 := Vm.New [Vm.OpTrue, Vm.OpTrue, Vm.OpAdd] [] with hv0
    obtain ⟨v1, hp1, hsp1, htop1, hsz1, _, _, ho1⟩ :=
      Vm.push_spec v0 Vm.True
        (by rw [hv0, Vm.sp_New]; norm_num [Vm.StackSize])
        (by rw [hv0, Vm.sp_New, Vm.stackSize_New]; norm_num [Vm.StackSize])
    obtain ⟨v2, hp2, hsp2, htop2, hsz2, _, _, ho2⟩ :=
      Vm.push_spec v1 Vm.True
        (by rw [hsp1, hv0, Vm.sp_New]; norm_num [Vm.StackSize])
        (by rw [hsp1, hsz1, hv0, Vm.sp_New, Vm.stackSize_New]; norm_num [Vm.StackSize])
    have hsp0 : v0.sp = 0 := by rw [hv0, Vm.sp_New]
    have hbin : Vm.executeBinaryOperation v2 Vm.OpAdd
        = Vm.Res.err ("unsupported types for binary operation: " ++
            Vm.BOOLEAN_OBJ ++ " " ++ Vm.BOOLEAN_OBJ) { v2 with sp := v2.sp - 2 } := by
      apply Vm.executeBinaryOperation_typeErr v2 Vm.OpAdd Vm.True Vm.True
      · omega
      · rw [show v2.sp - 2 = v0.sp from by omega, ho2 v0.sp (by omega),
          show v0.sp = v1.sp - 1 from by omega]
        exact htop1
      · exact htop2
      · rfl
      · rfl
      · decide
    unfold Vm.Run
    rw [show v0.instructions = [Vm.OpTrue, Vm.OpTrue, Vm.OpAdd] from by
      rw [hv0, Vm.instructions_New]]
    rw [Vm.runLoop_true, hp1]
    simp only []
    rw [Vm.runLoop_true, hp2]
    simp only []
    rw [Vm.runLoop_binary v2 Vm.OpAdd []
        (by norm_num [Vm.OpAdd, Vm.OpSub, Vm.OpMul, Vm.OpDiv]), hbin]
    rfl
  · set w0 := Vm.New [Vm.OpTrue, Vm.OpMinus] [] with hw0
    obtain ⟨w1, hp1, hsp1, htop1, hsz1, _, _, ho1⟩ :=
      Vm.push_spec w0 Vm.True
        (by rw [hw0, Vm.sp_New]; norm_num [Vm.StackSize])
        (by rw [hw0, Vm.sp_New, Vm.stackSize_New]; norm_num [Vm.StackSize])
    have hw0sp : w0.sp = 0 := by rw [hw0, Vm.sp_New]
    have hminus : Vm.executeMinusOperator w1
        = Vm.Res.err ("unsupported type for negation: " ++ Vm.BOOLEAN_OBJ)
            { w1 with sp := w1.sp - 1 } :=
      Vm.executeMinusOperator_typeErr w1 Vm.True Vm.BOOLEAN_OBJ (by omega) htop1 rfl (by decide)
    unfold Vm.Run
    rw [show w0.instructions = [Vm.OpTrue, Vm.OpMinus] from by rw [hw0, Vm.instructions_New]]
    rw [Vm.runLoop_true, hp1]
    simp only []
    rw [Vm.runLoop_minus, hminus]
    rfl

/-- Claim C4 (code bug): a non-Integer operand pairing of any binary
arithmetic opcode does yield the reported type error naming both
operand kinds, but the failure is not fatal in the claimed sense: `Run`
returns a nil error to its caller (`vm.go` line 47, `return nil`), as
the second conjunct evaluates at the failing input
`[OpConstant 0, OpTrue, OpAdd]`. -/
theorem c4_binary_type_error_reported_but_not_fatal :
    (∀ (v : Vm.VM) (op : Nat) (l r : Vm.Obj) (lt rt : String), 2 ≤ v.sp →
      v.stack.get? (v.sp - 2) = some l → v.stack.get? (v.sp - 1) = some r →
      Vm.typeOf l = some lt → Vm.typeOf r = some rt →
      ¬(lt = Vm.INTEGER_OBJ ∧ rt = Vm.INTEGER_OBJ) →
      Vm.executeBinaryOperation v op
        = Vm.Res.err ("unsupported types for binary operation: " ++ lt ++ " " ++ rt)
            { v with sp := v.sp - 2 }) ∧
    (Vm.Run (Vm.New [Vm.OpConstant, 0, 0, Vm.OpTrue, Vm.OpAdd] [Vm.Obj.integer 5])).isOk
      = true := by
  constructor
  · intro v op l r lt rt hsp hl hr hlt hrt hni
    exact Vm.executeBinaryOperation_typeErr v op l r lt rt hsp hl hr hlt hrt hni
  · set v0 := Vm.New [Vm.OpConstant, 0, 0, Vm.OpTrue, Vm.OpAdd] [Vm.Obj.integer 5] with hv0
    obtain ⟨v1, hp1, hsp1, htop1, hsz1, hc1, _, ho1⟩ :=
      Vm.push_spec v0 (Vm.Obj.integer 5)
        (by rw [hv0, Vm.sp_New]; norm_num [Vm.StackSize])
        (by rw [hv0, Vm.sp_New, Vm.stackSize_New]; norm_num [Vm.StackSize])
    obtain ⟨v2, hp2, hsp2, htop2, hsz2, _, _, ho2⟩ :=
      Vm.push_spec v1 Vm.True
        (by rw [hsp1, hv0, Vm.sp_New]; norm_num [Vm.StackSize])
        (by rw [hsp1, hsz1, hv0, Vm.sp_New, Vm.stackSize_New]; norm_num [Vm.StackSize])
    have hsp0 : v0.sp = 0 := by rw [hv0, Vm.sp_New]
    have hbin : Vm.executeBinaryOperation v2 Vm.OpAdd
        = Vm.Res.err ("unsupported types for binary operation: " ++
            Vm.INTEGER_OBJ ++ " " ++ Vm.BOOLEAN_OBJ) { v2 with sp := v2.sp - 2 } := by
      apply Vm.executeBinaryOperation_typeErr v2 Vm.OpAdd (Vm.Obj.integer 5) Vm.True
      · omega
      · rw [show v2.sp - 2 = v0.sp from by omega, ho2 v0.sp (by omega),
          show v0.sp = v1.sp - 1 from by omega]
        exact htop1
      · exact htop2
      · rfl
      · rfl
      · decide
    unfold Vm.Run
    rw [show v0.instructions = [Vm.OpConstant, 0, 0, Vm.OpTrue, Vm.OpAdd] from by
      rw [hv0, Vm.instructions_New]]
    rw [Vm.runLoop_constant,
      show v0.contants.get? (0 * 256 + 0) = some (Vm.Obj.integer 5) from by
        rw [hv0, Vm.contants_New]; rfl]
    simp only []
    rw [hp1]
    simp only []
    rw [Vm.runLoop_true, hp2]
    simp only []
    rw [Vm.runLoop_binary v2 Vm.OpAdd []
        (by norm_num [Vm.OpAdd, Vm.OpSub, Vm.OpMul, Vm.OpDiv]), hbin]
    rfl

theorem c4_binary_type_error_reported_but_not_fatal_witness :
    (Vm.executeBinaryOperation ⟨[], [], #[Vm.Obj.boolean true, Vm.Obj.integer 3], 2⟩ Vm.OpAdd
      = Vm.Res.err ("unsupported types for binary operation: " ++
          Vm.BOOLEAN_OBJ ++ " " ++ Vm.INTEGER_OBJ)
          ⟨[], [], #[Vm.Obj.boolean true, Vm.Obj.integer 3], 0⟩) ∧
    (Vm.Run (Vm.New [Vm.OpConstant, 0, 0, Vm.OpTrue, Vm.OpAdd] [Vm.Obj.integer 5])).isOk
      = true :=
  ⟨c4_binary_type_error_reported_but_not_fatal.1
      ⟨[], [], #[Vm.Obj.boolean true, Vm.Obj.integer 3], 2⟩ Vm.OpAdd
      (Vm.Obj.boolean true) (Vm.Obj.integer 3) Vm.BOOLEAN_OBJ Vm.INTEGER_OBJ
      (by decide) (by decide) (by decide) rfl rfl (by decide),
   c4_binary_type_error_reported_but_not_fatal.2⟩


/-- Counterexample to claim C6 as stated: the dispatch switch of `Run`
has no default case, so the unknown opcode byte 200 is silently
skipped — the run returns a nil error and keeps executing the following
instructions (`LastPoppedStackElement` shows the later `OpTrue` and
`OpPop` did run). -/
theorem c6_unknown_opcode_silently_skipped :
    Vm.runThenLastPopped [200, Vm.OpTrue, Vm.OpPop] [] = some (some Vm.True) := by
  set v0 := Vm.New [200, Vm.OpTrue, Vm.OpPop] [] with hv0
  obtain ⟨v1, hp1, hsp1, htop1, hsz1, _, _, ho1⟩ :=
    Vm.push_spec v0 Vm.True
      (by rw [hv0, Vm.sp_New]; norm_num [Vm.StackSize])
      (by rw [hv0, Vm.sp_New, Vm.stackSize_New]; norm_num [Vm.StackSize])
  have hsp0 : v0.sp = 0 := by rw [hv0, Vm.sp_New]
  have hpop : Vm.pop v1 = some (Vm.True, { v1 with sp := v1.sp - 1 }) :=
    Vm.pop_some v1 Vm.True (by omega) htop1
  have hR : Vm.Run v0 = Vm.Res.ok { v1 with sp := v1.sp - 1 } := by
    unfold Vm.Run
    rw [show v0.instructions = [200, Vm.OpTrue, Vm.OpPop] from by rw [hv0, Vm.instructions_New]]
    rw [Vm.runLoop_skip v0 200 _ (by decide) (by decide) (by decide) (by decide) (by decide)
      (by decide) (by decide) (by decide) (by decide) (by decide) (by decide) (by decide)
      (by decide)]
    rw [Vm.runLoop_true, hp1]
    simp only []
    rw [Vm.runLoop_pop, hpop]
    rfl
  rw [Vm.runThenLastPopped.eq_def, show Vm.New [200, Vm.OpTrue, Vm.OpPop] [] = v0 from hv0.symm,
    hR]
  simp only []
  have : Vm.LastPoppedStackElement { v1 with sp := v1.sp - 1 } = some Vm.True := by
    rw [Vm.LastPoppedStackElement]
    simp only []
    exact htop1
  rw [this]

/-- Claim C6 (amended): an unknown operator value inside a supported
dispatch branch is reported as an internal error by
`executeBinaryIntegerOperation` and `executeIntegerComparison`, but an
unknown opcode byte at the top level of `Run`'s switch is silently
skipped and execution continues with the next byte. -/
theorem c6_unknown_dispatch_behavior :
    (∀ (vm : Vm.VM) (op : Nat) (rest : List Nat),
      op ≠ Vm.OpConstant → op ≠ Vm.OpAdd → op ≠ Vm.OpSub → op ≠ Vm.OpMul → op ≠ Vm.OpDiv →
      op ≠ Vm.OpPop → op ≠ Vm.OpTrue → op ≠ Vm.OpFalse → op ≠ Vm.OpEqual →
      op ≠ Vm.OpNotEqual → op ≠ Vm.OpGreaterThan → op ≠ Vm.OpMinus → op ≠ Vm.OpBang →
      Vm.runLoop vm (op :: rest) = Vm.runLoop vm rest) ∧
    (∀ (vm : Vm.VM) (a b : Int) (op : Nat),
      op ≠ Vm.OpAdd → op ≠ Vm.OpSub → op ≠ Vm.OpMul → op ≠ Vm.OpDiv →
      Vm.executeBinaryIntegerOperation vm op (.integer a) (.integer b)
        = Vm.Res.err ("unknown integer operator: " ++ toString op) vm) ∧
    (∀ (vm : Vm.VM) (a b : Int) (op : Nat),
      op ≠ Vm.OpEqual → op ≠ Vm.OpNotEqual → op ≠ Vm.OpGreaterThan →
      Vm.executeIntegerComparison vm op (.integer a) (.integer b)
        = Vm.Res.err ("unknown operator: " ++ toString op) vm) :=
  ⟨fun vm op rest h0 h1 h3 h4 h5 h2 h6 h7 h8 h9 h10 h11 h12 =>
      Vm.runLoop_skip vm op rest h0 h1 h3 h4 h5 h2 h6 h7 h8 h9 h10 h11 h12,
   fun vm a b op h1 h2 h3 h4 => Vm.executeBinaryIntegerOperation_unknown vm a b op h1 h2 h3 h4,
   fun vm a b op h1 h2 h3 => Vm.executeIntegerComparison_unknown vm a b op h1 h2 h3⟩

theorem c6_unknown_dispatch_behavior_witness :
    Vm.runLoop ⟨[], [], #[], 0⟩ [200] = Vm.runLoop ⟨[], [], #[], 0⟩ [] ∧
    Vm.executeBinaryIntegerOperation ⟨[], [], #[], 0⟩ 99 (.integer 1) (.integer 2)
      = Vm.Res.err ("unknown integer operator: " ++ toString 99) ⟨[], [], #[], 0⟩ ∧
    Vm.executeIntegerComparison ⟨[], [], #[], 0⟩ 99 (.integer 1) (.integer 2)
      = Vm.Res.err ("unknown operator: " ++ toString 99) ⟨[], [], #[], 0⟩ :=
  ⟨c6_unknown_dispatch_behavior.1 ⟨[], [], #[], 0⟩ 200 [] (by decide) (by decide) (by decide)
      (by decide) (by decide) (by decide) (by decide) (by decide) (by decide) (by decide)
      (by decide) (by decide) (by decide),
   c6_unknown_dispatch_behavior.2.1 ⟨[], [], #[], 0⟩ 1 2 99 (by decide) (by decide) (by decide)
      (by decide),
   c6_unknown_dispatch_behavior.2.2 ⟨[], [], #[], 0⟩ 1 2 99 (by decide) (by decide) (by decide)⟩
